import Mathlib

/-!
Shallow embedding of the masked-numbers ride-sharing guide (Go).

The data model mirrors the Go structs in the repository: `Person`,
`ProxyNumberType`, `RideType` and `RideSharingDB`.  Go maps
(`map[int]Person` etc.) are embedded as lists: Go map iteration order is
unspecified, so a claim quantified over all databases quantifies over all
list orders, and a single list fixes one concrete iteration order
exactly as one run of the Go program would see it.

The operations embedded below are, from the source:
  - `getAvailableProxyNumber` (the proxy allocator),
  - `checkIfCustomer` / `checkIfDriver`,
  - the ride-scanning loop of `messageHookHandler` (SMS relay),
  - the ride-scanning loop of `voiceHookHandler` (voice transfer),
  - the `NumGrp` derivation performed by `loadDB`.
-/

namespace MaskedNumbers

/-- Go struct `Person` (customers and drivers). -/
structure Person where
  ID : Int
  Name : String
  Number : String
deriving DecidableEq, Repr

/-- Go struct `ProxyNumberType`. -/
structure ProxyNumberType where
  ID : Int
  Number : String
deriving DecidableEq, Repr

/-- Go struct `RideType`; `NumGrp` is the pair of (party id, proxy id)
binding groups that `loadDB` attaches to every ride. -/
structure RideType where
  ID : Int
  Start : String
  Destination : String
  DateTime : String
  ThisCustomer : Person
  ThisDriver : Person
  ThisProxyNumber : ProxyNumberType
  NumGrp : List (List Int)
deriving DecidableEq, Repr

/-- Go struct `RideSharingDB`; the maps are embedded as lists (see the
file comment). -/
structure RideSharingDB where
  Customers : List Person
  Drivers : List Person
  ProxyNumbers : List ProxyNumberType
  Rides : List RideType
  Message : String
deriving DecidableEq, Repr

/-- The function `loadDB` builds the `NumGrp` of each ride as
`[[customerID, proxyID], [driverID, proxyID]]` (part_001 lines 178-179).
This constructor packages a ride the way `loadDB` would deliver it. -/
def mkRide (id : Int) (start dest dt : String) (cust drv : Person)
    (proxy : ProxyNumberType) : RideType :=
  { ID := id, Start := start, Destination := dest, DateTime := dt,
    ThisCustomer := cust, ThisDriver := drv, ThisProxyNumber := proxy,
    NumGrp := [[cust.ID, proxy.ID], [drv.ID, proxy.ID]] }

/-- Go `checkIfCustomer`: scans the whole customers table for the phone
number `checkme`. -/
def checkIfCustomer (dbdata : RideSharingDB) (checkme : String) : Bool :=
  dbdata.Customers.any (fun v => v.Number == checkme)

/-- Go `checkIfDriver`: scans the whole drivers table for the phone
number `checkme`. -/
def checkIfDriver (dbdata : RideSharingDB) (checkme : String) : Bool :=
  dbdata.Drivers.any (fun v => v.Number == checkme)

/-- The `containsNumGrp` closure inside `getAvailableProxyNumber`:
membership of a binding group in a list of binding groups
(`reflect.DeepEqual` on `[]int` is structural equality). -/
def containsNumGrp (arr : List (List Int)) (findme : List Int) : Bool :=
  arr.any (fun v => v == findme)

/-- The flattened binding set `rideProxySets` accumulated by
`getAvailableProxyNumber`: all `NumGrp` entries of all rides, in ride
iteration order. -/
def rideProxySets (rides : List RideType) : List (List Int) :=
  rides.foldl (fun acc v1 => acc ++ v1.NumGrp) []

/-- Go `getAvailableProxyNumber` (part_000 lines 30-72).  `none` embeds
the `fmt.Errorf("no available proxy numbers")` failure.  An empty ride
history returns the first pool element the (unordered) map iteration
yields, which the list embedding renders as `head?`. -/
def getAvailableProxyNumber (dbdata : RideSharingDB)
    (customerID driverID : Int) : Option ProxyNumberType :=
  if dbdata.Rides.length == 0 then
    dbdata.ProxyNumbers.head?
  else
    dbdata.ProxyNumbers.find? (fun v2 =>
      !containsNumGrp (rideProxySets dbdata.Rides) [customerID, v2.ID] &&
      !containsNumGrp (rideProxySets dbdata.Rides) [driverID, v2.ID])

/-- The two log lines `messageHookHandler` can emit while scanning rides:
`"Unknown proxy number: %s"` and
`"Could not find ride for customer/driver %s that uses proxy %s"`. -/
inductive MsgLog where
  | unknownProxy (receiver : String)
  | couldNotFindRide (originator receiver : String)
deriving DecidableEq, Repr

/-- The ride-scanning loop of `messageHookHandler` (routes.go lines
149-178).  Returns the log lines emitted and, when the handler calls
`mbSender` and returns, the counterparty number the payload is forwarded
to (`none` means the loop fell through to the final `fmt.Fprint(w, "OK")`
with no forward). -/
def messageHookLoop (dbdata : RideSharingDB) (originator receiver : String) :
    List RideType → List MsgLog × Option String
  | [] => ([], none)
  | v :: rest =>
    if v.ThisProxyNumber.Number == receiver then
      if checkIfCustomer dbdata originator then
        ([], some v.ThisDriver.Number)
      else if checkIfDriver dbdata originator then
        ([], some v.ThisCustomer.Number)
      else
        let r := messageHookLoop dbdata originator receiver rest
        (MsgLog.couldNotFindRide originator receiver :: r.1, r.2)
    else
      let r := messageHookLoop dbdata originator receiver rest
      (MsgLog.unknownProxy receiver :: r.1, r.2)

/-- The resolution that `messageHookHandler` performs for one inbound SMS
event: scan `dbdata.Rides` with the loop above. -/
def messageHookForward (dbdata : RideSharingDB) (originator receiver : String) :
    List MsgLog × Option String :=
  messageHookLoop dbdata originator receiver dbdata.Rides

/-- The two XML call-flow shapes `voiceHookHandler` can write: a
`Transfer` directive carrying the destination attribute, or the
`Say`+`Hangup` transaction-failure announcement (`transactionFailXML`). -/
inductive VoiceResponse where
  | transfer (destinationNumber : String)
  | failAnnounce
deriving DecidableEq, Repr

/-- The ride-scanning loop of `voiceHookHandler` (routes.go lines
221-246), threading the mutable `forwardToThisNumber` variable (initially
`""`).  A matching ride overwrites it and the loop CONTINUES; any
non-matching proxy, or an unclassifiable caller, writes the failure XML
and returns; falling off the loop writes the `Transfer` directive with
the current `forwardToThisNumber`. -/
def voiceHookLoop (dbdata : RideSharingDB) (caller proxyNumber : String)
    (forwardToThisNumber : String) : List RideType → VoiceResponse
  | [] => VoiceResponse.transfer forwardToThisNumber
  | v :: rest =>
    if v.ThisProxyNumber.Number == proxyNumber then
      if checkIfCustomer dbdata caller then
        voiceHookLoop dbdata caller proxyNumber v.ThisDriver.Number rest
      else if checkIfDriver dbdata caller then
        voiceHookLoop dbdata caller proxyNumber v.ThisCustomer.Number rest
      else VoiceResponse.failAnnounce
    else VoiceResponse.failAnnounce

/-- The response that `voiceHookHandler` produces for one inbound call on
`proxyNumber` from `caller`. -/
def voiceHookResponse (dbdata : RideSharingDB) (proxyNumber caller : String) :
    VoiceResponse :=
  voiceHookLoop dbdata caller proxyNumber "" dbdata.Rides

/-- A database snapshot with the given proxy pool and ride history;
`getAvailableProxyNumber` reads only these two fields. -/
def mkDB (pool : List ProxyNumberType) (rides : List RideType) : RideSharingDB :=
  { Customers := [], Drivers := [], ProxyNumbers := pool, Rides := rides,
    Message := "" }

/-- C5: on an empty ride history and a non-empty pool,
`getAvailableProxyNumber` succeeds and returns a member of the pool;
it never reports "no available proxy numbers" in this case. -/
theorem allocate_empty_history_succeeds (db : RideSharingDB)
    (customerID driverID : Int) (hr : db.Rides = [])
    (hp : db.ProxyNumbers ≠ []) :
    ∃ p, getAvailableProxyNumber db customerID driverID = some p ∧
      p ∈ db.ProxyNumbers := by
  cases hpn : db.ProxyNumbers with
  | nil => exact absurd hpn hp
  | cons a t =>
    refine ⟨a, ?_, by simp [hpn]⟩
    simp [getAvailableProxyNumber, hr, hpn]

/-- Witness for C5 at a concrete database. -/
theorem allocate_empty_history_succeeds_witness :
    (mkDB [⟨7, "319700004"⟩] []).Rides = [] ∧
    (mkDB [⟨7, "319700004"⟩] []).ProxyNumbers ≠ [] ∧
    ∃ p, getAvailableProxyNumber (mkDB [⟨7, "319700004"⟩] []) 1 2 = some p ∧
      p ∈ (mkDB [⟨7, "319700004"⟩] []).ProxyNumbers :=
  ⟨rfl, by decide,
    allocate_empty_history_succeeds (mkDB [⟨7, "319700004"⟩] []) 1 2 rfl
      (by decide)⟩

/-- The pool member of the C6 exhaustion scenario. -/
def exhaustP1 : ProxyNumberType := ⟨10, "P1"⟩

/-- The C6 database: pool `{P1}` and exactly one committed pairing
(customer id 1, driver id 2, proxy `P1`). -/
def exhaustDB : RideSharingDB :=
  mkDB [exhaustP1]
    [mkRide 1 "start" "dest" "t" ⟨1, "c1", "111"⟩ ⟨2, "d2", "222"⟩ exhaustP1]

/-- C6: with pool `{P1}` and one pairing (cust 1, drv 2, proxy P1),
allocation for (customer 1, driver 3) fails with no-available-proxy
(`none`), while allocation for (customer 5, driver 6) succeeds returning
`P1`. -/
theorem allocate_exhaustion_scenario :
    getAvailableProxyNumber exhaustDB 1 3 = none ∧
    getAvailableProxyNumber exhaustDB 5 6 = some exhaustP1 := by
  decide

/-- Pool members of the C7 rotation scenario. -/
def rotV1 : ProxyNumberType := ⟨10, "V1"⟩

def rotV2 : ProxyNumberType := ⟨11, "V2"⟩

/-- C7 parties: customers A (id 1), B (id 2); drivers C (id 3), D (id 4). -/
def rotA : Person := ⟨1, "A", "aaa"⟩

def rotB : Person := ⟨2, "B", "bbb"⟩

def rotC : Person := ⟨3, "C", "ccc"⟩

def rotD : Person := ⟨4, "D", "ddd"⟩

/-- The committed pairing (A, C) → V1 of the C7 scenario. -/
def rotRideAC : RideType := mkRide 1 "s" "e" "t" rotA rotC rotV1

/-- The committed pairing (A, D) → V2 of the C7 scenario. -/
def rotRideAD : RideType := mkRide 2 "s" "e" "t" rotA rotD rotV2

/-- C7 rotation-economy scenario: with pairing (A,C)→V1 committed,
allocating (A,D) on pool `{V1}` fails (`none`); on pool `{V1,V2}` it
succeeds returning V2; and with both pairings committed, allocating
(B,D) on pool `{V1,V2}` succeeds — it returns V1, a permitted result
since neither B nor D conflicts with the bindings of V1. -/
theorem allocate_rotation_scenario :
    getAvailableProxyNumber (mkDB [rotV1] [rotRideAC]) 1 4 = none ∧
    getAvailableProxyNumber (mkDB [rotV1, rotV2] [rotRideAC]) 1 4 = some rotV2 ∧
    getAvailableProxyNumber (mkDB [rotV1, rotV2] [rotRideAC, rotRideAD]) 2 4 =
      some rotV1 := by
  decide

/-- C10: when the ride history is empty the per-ride loop of the voice handler
runs zero iterations and the handler emits the `Transfer` directive with
destination `""` (the initial value of `forwardToThisNumber`), not the
`Say`+`Hangup` failure flow — the failure announcement is only produced
from inside a loop iteration. -/
theorem voice_empty_history_transfers_empty (db : RideSharingDB)
    (proxyNumber caller : String) (hr : db.Rides = []) :
    voiceHookResponse db proxyNumber caller = VoiceResponse.transfer "" := by
  unfold voiceHookResponse
  rw [hr]
  rfl

/-- Witness for C10 at a concrete database. -/
theorem voice_empty_history_transfers_empty_witness :
    (mkDB [⟨10, "P"⟩] []).Rides = [] ∧
    voiceHookResponse (mkDB [⟨10, "P"⟩] []) "P" "319700000" =
      VoiceResponse.transfer "" :=
  ⟨rfl, voice_empty_history_transfers_empty (mkDB [⟨10, "P"⟩] []) "P"
    "319700000" rfl⟩

/-- A database in which two pairings share proxy "P": ride 2 binds
(customer "X", driver "Y") to "P" and iterates first; ride 1 binds
(customer "A", driver "B") to "P".  The parties are pairwise disjoint, so
this history satisfies the no-collision data-model invariant. -/
def sharedProxyDB : RideSharingDB :=
  { Customers := [⟨1, "c1", "A"⟩, ⟨2, "c2", "X"⟩],
    Drivers := [⟨3, "d1", "B"⟩, ⟨4, "d2", "Y"⟩],
    ProxyNumbers := [⟨10, "P"⟩],
    Rides := [mkRide 2 "s" "e" "t" ⟨2, "c2", "X"⟩ ⟨4, "d2", "Y"⟩ ⟨10, "P"⟩,
              mkRide 1 "s" "e" "t" ⟨1, "c1", "A"⟩ ⟨3, "d1", "B"⟩ ⟨10, "P"⟩],
    Message := "" }

/-- Counterexample to C1 as stated: `sharedProxyDB` contains the pairing
(customer "A", driver "B", proxy "P"), yet the message hook resolves an
inbound event on proxy "P" from sender "A" to "Y" — the driver of the
FIRST ride bound to "P" in iteration order — because the sender is
classified against the global customers table, not against the pairing
that owns the match.  The claimed counterparty "B" is not returned. -/
theorem resolve_roundtrip_counterexample :
    (∃ r ∈ sharedProxyDB.Rides, r.ThisCustomer.Number = "A" ∧
      r.ThisDriver.Number = "B" ∧ r.ThisProxyNumber.Number = "P") ∧
    (messageHookForward sharedProxyDB "A" "P").2 = some "Y" ∧
    (some "Y" : Option String) ≠ some "B" := by
  decide

/-- Rides whose proxy number differs from `receiver` only add an
unknown-proxy log line; the forward outcome of the message loop is
decided by the remaining rides. -/
theorem messageHookLoop_skip_mismatch (db : RideSharingDB)
    (originator receiver : String) (pre l : List RideType)
    (hpre : ∀ q ∈ pre, q.ThisProxyNumber.Number ≠ receiver) :
    (messageHookLoop db originator receiver (pre ++ l)).2 =
      (messageHookLoop db originator receiver l).2 := by
  induction pre with
  | nil => rfl
  | cons a t ih =>
    have ha : (a.ThisProxyNumber.Number == receiver) = false :=
      beq_eq_false_iff_ne.mpr (hpre a (List.mem_cons_self a t))
    have ht : ∀ q ∈ t, q.ThisProxyNumber.Number ≠ receiver :=
      fun q hq => hpre q (List.mem_cons_of_mem a hq)
    simp only [List.cons_append, messageHookLoop, ha, Bool.false_eq_true,
      if_false]
    exact ih ht

/-- C1 amended: the round-trip holds for the pairing (customer "A",
driver "B", proxy "P") provided that pairing is the first ride in
iteration order whose proxy number is "P", that "A" is a registered
customer number, and that "B" is a registered driver number that is not
also a customer number (the handler classifies senders against the
global tables, customers first). -/
theorem resolve_roundtrip_amended (db : RideSharingDB)
    (pre post : List RideType) (r : RideType)
    (custNum drvNum proxyNum : String)
    (hrides : db.Rides = pre ++ r :: post)
    (hpre : ∀ q ∈ pre, q.ThisProxyNumber.Number ≠ proxyNum)
    (hc : r.ThisCustomer.Number = custNum)
    (hd : r.ThisDriver.Number = drvNum)
    (hp : r.ThisProxyNumber.Number = proxyNum)
    (hcustIn : checkIfCustomer db custNum = true)
    (hdrvNotCust : checkIfCustomer db drvNum = false)
    (hdrvIn : checkIfDriver db drvNum = true) :
    (messageHookForward db custNum proxyNum).2 = some drvNum ∧
    (messageHookForward db drvNum proxyNum).2 = some custNum := by
  have hpb : (r.ThisProxyNumber.Number == proxyNum) = true :=
    beq_iff_eq.mpr hp
  unfold messageHookForward
  rw [hrides]
  rw [messageHookLoop_skip_mismatch db custNum proxyNum pre (r :: post) hpre,
    messageHookLoop_skip_mismatch db drvNum proxyNum pre (r :: post) hpre]
  constructor
  · simp only [messageHookLoop, hpb, if_true, hcustIn, hd]
  · simp only [messageHookLoop, hpb, if_true, hdrvNotCust,
      Bool.false_eq_true, if_false, hdrvIn, hc]

/-- A single-pairing database for the C1 witness: pairing
(customer "A", driver "B", proxy "P"). -/
def roundtripDB : RideSharingDB :=
  { Customers := [⟨1, "c1", "A"⟩],
    Drivers := [⟨3, "d1", "B"⟩],
    ProxyNumbers := [⟨10, "P"⟩],
    Rides := [mkRide 1 "s" "e" "t" ⟨1, "c1", "A"⟩ ⟨3, "d1", "B"⟩ ⟨10, "P"⟩],
    Message := "" }

/-- Witness for the amended C1 at a concrete database. -/
theorem resolve_roundtrip_amended_witness :
    (messageHookForward roundtripDB "A" "P").2 = some "B" ∧
    (messageHookForward roundtripDB "B" "P").2 = some "A" :=
  resolve_roundtrip_amended roundtripDB []
    [] (mkRide 1 "s" "e" "t" ⟨1, "c1", "A"⟩ ⟨3, "d1", "B"⟩ ⟨10, "P"⟩)
    "A" "B" "P" rfl (by simp) rfl rfl rfl (by decide) (by decide) (by decide)

/-- A database for the C2 counterexample: one pairing
(customer "A", driver "B", proxy "P"), plus an unrelated registered
customer whose phone number is "C". -/
def strangerDB : RideSharingDB :=
  { Customers := [⟨1, "c1", "A"⟩, ⟨2, "c2", "C"⟩],
    Drivers := [⟨3, "d1", "B"⟩],
    ProxyNumbers := [⟨10, "P"⟩],
    Rides := [mkRide 1 "s" "e" "t" ⟨1, "c1", "A"⟩ ⟨3, "d1", "B"⟩ ⟨10, "P"⟩],
    Message := "" }

/-- Counterexample to C2 as stated: in `strangerDB` the sender "C"
matches neither party of the pairing owning proxy "P", yet resolution
does NOT fail — the payload is forwarded to driver "B", because the
handler accepts any sender found in the global customers table. -/
theorem unrecognized_sender_counterexample :
    (∀ r ∈ strangerDB.Rides, r.ThisProxyNumber.Number = "P" →
      r.ThisCustomer.Number ≠ "C" ∧ r.ThisDriver.Number ≠ "C") ∧
    (messageHookForward strangerDB "C" "P").2 = some "B" := by
  decide

/-- When the sender is in neither the customers nor the drivers table,
the message loop forwards nothing and emits the unrecognized-sender log
line for every ride bound to the receiving proxy. -/
theorem messageHookLoop_no_global_match (db : RideSharingDB)
    (originator receiver : String)
    (hc : checkIfCustomer db originator = false)
    (hd : checkIfDriver db originator = false) :
    ∀ l : List RideType,
      (messageHookLoop db originator receiver l).2 = none ∧
      ∀ r ∈ l, r.ThisProxyNumber.Number = receiver →
        MsgLog.couldNotFindRide originator receiver ∈
          (messageHookLoop db originator receiver l).1 := by
  intro l
  induction l with
  | nil => exact ⟨rfl, by simp⟩
  | cons a t ih =>
    by_cases hpa : a.ThisProxyNumber.Number = receiver
    · have hb : (a.ThisProxyNumber.Number == receiver) = true :=
        beq_iff_eq.mpr hpa
      refine ⟨?_, ?_⟩
      · simp only [messageHookLoop, hb, if_true, hc, hd,
          Bool.false_eq_true, if_false]
        exact ih.1
      · intro r hr hrp
        simp only [messageHookLoop, hb, if_true, hc, hd,
          Bool.false_eq_true, if_false]
        exact List.mem_cons_self _ _
    · have hb : (a.ThisProxyNumber.Number == receiver) = false :=
        beq_eq_false_iff_ne.mpr hpa
      refine ⟨?_, ?_⟩
      · simp only [messageHookLoop, hb, Bool.false_eq_true, if_false]
        exact ih.1
      · intro r hr hrp
        simp only [messageHookLoop, hb, Bool.false_eq_true, if_false]
        rcases List.mem_cons.mp hr with rfl | hrt
        · exact absurd hrp hpa
        · exact List.mem_cons_of_mem _ (ih.2 r hrt hrp)

/-- C2 amended: if the sender number belongs to no customer and to no
driver anywhere in the system, then no message is forwarded and every
pairing bound to the receiving proxy produces the unrecognized-sender
log line.  (The code checks the sender against the full customers and
drivers tables, not against the parties of the specific pairing owning
the proxy; a sender matching any registered customer or driver is
forwarded, as the counterexample shows.) -/
theorem unrecognized_sender_amended (db : RideSharingDB)
    (originator receiver : String)
    (hc : checkIfCustomer db originator = false)
    (hd : checkIfDriver db originator = false) :
    (messageHookForward db originator receiver).2 = none ∧
    ∀ r ∈ db.Rides, r.ThisProxyNumber.Number = receiver →
      MsgLog.couldNotFindRide originator receiver ∈
        (messageHookForward db originator receiver).1 :=
  messageHookLoop_no_global_match db originator receiver hc hd db.Rides

/-- Witness for the amended C2: sender "555" is registered nowhere in
`strangerDB`, so nothing is forwarded and the pairing owning "P" logs
the unrecognized-sender line. -/
theorem unrecognized_sender_amended_witness :
    (messageHookForward strangerDB "555" "P").2 = none ∧
    ∀ r ∈ strangerDB.Rides, r.ThisProxyNumber.Number = "P" →
      MsgLog.couldNotFindRide "555" "P" ∈
        (messageHookForward strangerDB "555" "P").1 :=
  unrecognized_sender_amended strangerDB "555" "P" (by decide) (by decide)

/-- A database with two pairings on distinct proxies: ride 1 binds
(customer "X", driver "Y") to proxy "P1" and iterates first; ride 2
binds (customer "A", driver "B") to proxy "P2". -/
def twoProxyDB : RideSharingDB :=
  { Customers := [⟨1, "c1", "A"⟩, ⟨2, "c2", "X"⟩],
    Drivers := [⟨3, "d1", "B"⟩, ⟨4, "d2", "Y"⟩],
    ProxyNumbers := [⟨10, "P1"⟩, ⟨11, "P2"⟩],
    Rides := [mkRide 1 "s" "e" "t" ⟨2, "c2", "X"⟩ ⟨4, "d2", "Y"⟩ ⟨10, "P1"⟩,
              mkRide 2 "s" "e" "t" ⟨1, "c1", "A"⟩ ⟨3, "d1", "B"⟩ ⟨11, "P2"⟩],
    Message := "" }

/-- C3 at the failing input: in `twoProxyDB` a call from the registered
customer "A" to proxy "P2" — the proxy owned by the pairing whose
customer phone IS "A" — is answered with the failure announcement,
because the voice loop returns the failure flow on the FIRST ride whose
proxy does not match, before ever reaching the matching pairing.  The
message path mishandles shared proxies in the same spirit (see the C1
counterexample). -/
theorem voice_fails_closed_on_first_mismatch :
    checkIfCustomer twoProxyDB "A" = true ∧
    (∃ r ∈ twoProxyDB.Rides, r.ThisProxyNumber.Number = "P2" ∧
      r.ThisCustomer.Number = "A" ∧ r.ThisDriver.Number = "B") ∧
    voiceHookResponse twoProxyDB "P2" "A" = VoiceResponse.failAnnounce := by
  decide

/-- A single-pairing database for the C4 counterexample: pairing
(customer "A", driver "B", proxy "P"). -/
def dualFailureDB : RideSharingDB :=
  { Customers := [⟨1, "c1", "A"⟩],
    Drivers := [⟨3, "d1", "B"⟩],
    ProxyNumbers := [⟨10, "P"⟩],
    Rides := [mkRide 1 "s" "e" "t" ⟨1, "c1", "A"⟩ ⟨3, "d1", "B"⟩ ⟨10, "P"⟩],
    Message := "" }

/-- Counterexample to C4 as stated: the voice path does NOT distinguish
the two failure kinds.  In `dualFailureDB`, a call to the unbound proxy
"Z" (unknown proxy) and a call to the bound proxy "P" from the
unregistered sender "C" (unrecognized sender) produce the identical
observable response — the same failure announcement. -/
theorem unknown_proxy_counterexample :
    (∀ r ∈ dualFailureDB.Rides, r.ThisProxyNumber.Number ≠ "Z") ∧
    (∀ r ∈ dualFailureDB.Rides, r.ThisProxyNumber.Number = "P" →
      r.ThisCustomer.Number ≠ "C" ∧ r.ThisDriver.Number ≠ "C") ∧
    voiceHookResponse dualFailureDB "Z" "A" = VoiceResponse.failAnnounce ∧
    voiceHookResponse dualFailureDB "P" "C" = VoiceResponse.failAnnounce ∧
    voiceHookResponse dualFailureDB "Z" "A" =
      voiceHookResponse dualFailureDB "P" "C" := by
  decide

/-- When no ride is bound to the receiving proxy, the message loop
forwards nothing and its log is exactly one unknown-proxy line per
scanned ride. -/
theorem messageHookLoop_all_unknown (db : RideSharingDB)
    (originator receiver : String) :
    ∀ l : List RideType, (∀ r ∈ l, r.ThisProxyNumber.Number ≠ receiver) →
      messageHookLoop db originator receiver l =
        (l.map (fun _ => MsgLog.unknownProxy receiver), none) := by
  intro l
  induction l with
  | nil => intro _; rfl
  | cons a t ih =>
    intro hl
    have hb : (a.ThisProxyNumber.Number == receiver) = false :=
      beq_eq_false_iff_ne.mpr (hl a (List.mem_cons_self a t))
    have ht := ih (fun q hq => hl q (List.mem_cons_of_mem a hq))
    simp only [messageHookLoop, hb, Bool.false_eq_true, if_false, ht,
      List.map_cons]

/-- C4 amended: when the proxy number of an inbound event is bound by no
pairing, no forward occurs.  The message path falls through to the plain
"OK" response after logging only unknown-proxy lines — a log vocabulary
distinct from the unrecognized-sender line, so the two failures remain
distinguishable there.  The voice path (on a non-empty history) answers
with the same failure announcement it uses for an unrecognized sender:
the two failure kinds are NOT distinguished in the voice path, as the
counterexample shows. -/
theorem unknown_proxy_amended (db : RideSharingDB)
    (originator receiver : String)
    (hub : ∀ r ∈ db.Rides, r.ThisProxyNumber.Number ≠ receiver) :
    (messageHookForward db originator receiver).2 = none ∧
    (∀ e ∈ (messageHookForward db originator receiver).1,
      e = MsgLog.unknownProxy receiver) ∧
    (db.Rides ≠ [] →
      voiceHookResponse db receiver originator = VoiceResponse.failAnnounce) := by
  have hm := messageHookLoop_all_unknown db originator receiver db.Rides hub
  refine ⟨?_, ?_, ?_⟩
  · unfold messageHookForward
    rw [hm]
  · unfold messageHookForward
    rw [hm]
    intro e he
    obtain ⟨a, _, hfa⟩ := List.mem_map.mp he
    exact hfa.symm
  · intro hne
    unfold voiceHookResponse
    cases hr : db.Rides with
    | nil => exact absurd hr hne
    | cons a t =>
      have hb : (a.ThisProxyNumber.Number == receiver) = false :=
        beq_eq_false_iff_ne.mpr (hub a (hr ▸ List.mem_cons_self a t))
      simp only [voiceHookLoop, hb, Bool.false_eq_true, if_false]

/-- Witness for the amended C4: proxy "Z" is bound by no pairing of
`dualFailureDB`. -/
theorem unknown_proxy_amended_witness :
    (messageHookForward dualFailureDB "A" "Z").2 = none ∧
    (∀ e ∈ (messageHookForward dualFailureDB "A" "Z").1,
      e = MsgLog.unknownProxy "Z") ∧
    (dualFailureDB.Rides ≠ [] →
      voiceHookResponse dualFailureDB "Z" "A" = VoiceResponse.failAnnounce) :=
  unknown_proxy_amended dualFailureDB "A" "Z" (by decide)

/-- State-passing embedding of the pool-scanning loop of
`getAvailableProxyNumber`: the database flows through every iteration and
is returned alongside the result, making any mutation explicit.  The Go
body only reads through the `dbdata` pointer, so each branch passes `db`
on unchanged. -/
def proxyScanS (customerID driverID : Int) (sets : List (List Int)) :
    List ProxyNumberType → RideSharingDB →
      Option ProxyNumberType × RideSharingDB
  | [], db => (none, db)
  | v2 :: rest, db =>
    if !containsNumGrp sets [customerID, v2.ID] &&
       !containsNumGrp sets [driverID, v2.ID] then
      (some v2, db)
    else proxyScanS customerID driverID sets rest db

/-- State-passing embedding of the `rideProxySets` accumulation loop of
`getAvailableProxyNumber`. -/
def collectSetsS :
    List RideType → List (List Int) → RideSharingDB →
      List (List Int) × RideSharingDB
  | [], acc, db => (acc, db)
  | v1 :: rest, acc, db => collectSetsS rest (acc ++ v1.NumGrp) db

/-- State-passing embedding of `getAvailableProxyNumber` as a whole:
returns the allocated proxy (or the no-available-proxy failure) together
with the database state after the call. -/
def getAvailableProxyNumberS (db : RideSharingDB)
    (customerID driverID : Int) :
    Option ProxyNumberType × RideSharingDB :=
  if db.Rides.length == 0 then
    match db.ProxyNumbers with
    | [] => (none, db)
    | v :: _ => (some v, db)
  else
    let s := collectSetsS db.Rides [] db
    proxyScanS customerID driverID s.1 db.ProxyNumbers s.2

theorem collectSetsS_state (db : RideSharingDB) :
    ∀ (l : List RideType) (acc : List (List Int)),
      (collectSetsS l acc db).2 = db := by
  intro l
  induction l with
  | nil => intro acc; rfl
  | cons a t ih => intro acc; exact ih (acc ++ a.NumGrp)

theorem collectSetsS_val (db : RideSharingDB) :
    ∀ (l : List RideType) (acc : List (List Int)),
      (collectSetsS l acc db).1 =
        List.foldl (fun a v1 => a ++ v1.NumGrp) acc l := by
  intro l
  induction l with
  | nil => intro acc; rfl
  | cons a t ih =>
    intro acc
    simp only [collectSetsS, List.foldl_cons]
    exact ih (acc ++ a.NumGrp)

theorem proxyScanS_state (customerID driverID : Int) (sets : List (List Int))
    (db : RideSharingDB) :
    ∀ pool : List ProxyNumberType,
      (proxyScanS customerID driverID sets pool db).2 = db := by
  intro pool
  induction pool with
  | nil => rfl
  | cons v2 rest ih =>
    by_cases hv : (!containsNumGrp sets [customerID, v2.ID] &&
        !containsNumGrp sets [driverID, v2.ID]) = true
    · simp only [proxyScanS, hv, if_true]
    · simp only [proxyScanS, hv, if_false]
      exact ih

theorem proxyScanS_val (customerID driverID : Int) (sets : List (List Int))
    (db : RideSharingDB) :
    ∀ pool : List ProxyNumberType,
      (proxyScanS customerID driverID sets pool db).1 =
        pool.find? (fun v2 =>
          !containsNumGrp sets [customerID, v2.ID] &&
          !containsNumGrp sets [driverID, v2.ID]) := by
  intro pool
  induction pool with
  | nil => rfl
  | cons v2 rest ih =>
    cases hv : (!containsNumGrp sets [customerID, v2.ID] &&
        !containsNumGrp sets [driverID, v2.ID]) with
    | true => simp [proxyScanS, List.find?, hv]
    | false =>
      simp only [proxyScanS, List.find?, hv, Bool.false_eq_true, if_false]
      exact ih

/-- C9: the allocator is pure in its inputs.  In the state-passing
embedding, the database coming out of `getAvailableProxyNumberS` — pool,
ride history, customers, drivers and message field alike — is exactly
the database that went in, whether the call succeeds or fails, and the
value computed agrees with the direct functional embedding
`getAvailableProxyNumber`. -/
theorem allocate_pure_frame (db : RideSharingDB)
    (customerID driverID : Int) :
    (getAvailableProxyNumberS db customerID driverID).2 = db ∧
    (getAvailableProxyNumberS db customerID driverID).1 =
      getAvailableProxyNumber db customerID driverID := by
  cases hL : (db.Rides.length == 0) with
  | true =>
    refine ⟨?_, ?_⟩ <;>
      simp only [getAvailableProxyNumberS, getAvailableProxyNumber, hL,
        if_true] <;>
      cases db.ProxyNumbers <;> rfl
  | false =>
    refine ⟨?_, ?_⟩
    · simp only [getAvailableProxyNumberS, hL, Bool.false_eq_true, if_false]
      rw [proxyScanS_state, collectSetsS_state]
    · simp only [getAvailableProxyNumberS, getAvailableProxyNumber, hL,
        Bool.false_eq_true, if_false]
      rw [proxyScanS_val, collectSetsS_val]
      rfl

/-- The ride record that `createRideHandler` persists after a successful
allocation, as `loadDB` later reloads it: customer id `c`, driver id
`d`, proxy `p`, with the derived `NumGrp` bindings. -/
def committedRide (c d : Int) (p : ProxyNumberType) : RideType :=
  mkRide 0 "" "" "" ⟨c, "", ""⟩ ⟨d, "", ""⟩ p

/-- Iterated allocate-then-commit: each request (customer id, driver id)
runs `getAvailableProxyNumber` against the current history; a successful
result is committed to the history before the next call; a
no-available-proxy failure commits nothing. -/
def commitRides (pool : List ProxyNumberType) :
    List (Int × Int) → List RideType → List RideType
  | [], hist => hist
  | cd :: rest, hist =>
    match getAvailableProxyNumber (mkDB pool hist) cd.1 cd.2 with
    | some p => commitRides pool rest (hist ++ [committedRide cd.1 cd.2 p])
    | none => commitRides pool rest hist

/-- Two pairings have disjoint bindings: if they share a proxy number,
neither of the two party identities of the one appears among the two
party identities of the other. -/
def bindingDisjoint (r1 r2 : RideType) : Prop :=
  r1.ThisProxyNumber.Number = r2.ThisProxyNumber.Number →
    r1.ThisCustomer.ID ≠ r2.ThisCustomer.ID ∧
    r1.ThisCustomer.ID ≠ r2.ThisDriver.ID ∧
    r1.ThisDriver.ID ≠ r2.ThisCustomer.ID ∧
    r1.ThisDriver.ID ≠ r2.ThisDriver.ID

/-- The no-collision invariant over a ride history: every two distinct
pairings have disjoint bindings. -/
def noCollision (h : List RideType) : Prop := h.Pairwise bindingDisjoint

/-- A ride whose `NumGrp` is the one `loadDB` derives from its own
customer, driver and proxy references. -/
def goodRide (r : RideType) : Prop :=
  r.NumGrp = [[r.ThisCustomer.ID, r.ThisProxyNumber.ID],
              [r.ThisDriver.ID, r.ThisProxyNumber.ID]]

theorem mem_foldl_numgrp (x : List Int) :
    ∀ (rides : List RideType) (init : List (List Int)),
      (x ∈ init ∨ ∃ q ∈ rides, x ∈ q.NumGrp) →
      x ∈ List.foldl (fun acc v1 => acc ++ v1.NumGrp) init rides := by
  intro rides
  induction rides with
  | nil =>
    intro init h
    rcases h with hx | ⟨q, hq, _⟩
    · exact hx
    · exact absurd hq (List.not_mem_nil q)
  | cons a t ih =>
    intro init h
    simp only [List.foldl_cons]
    apply ih
    rcases h with hx | ⟨q, hq, hxq⟩
    · exact Or.inl (List.mem_append_left _ hx)
    · rcases List.mem_cons.mp hq with rfl | hq2
      · exact Or.inl (List.mem_append_right _ hxq)
      · exact Or.inr ⟨q, hq2, hxq⟩

theorem mem_rideProxySets (x : List Int) (rides : List RideType)
    (q : RideType) (hq : q ∈ rides) (hx : x ∈ q.NumGrp) :
    x ∈ rideProxySets rides :=
  mem_foldl_numgrp x rides [] (Or.inr ⟨q, hq, hx⟩)

/-- A successful allocation returns a member of the pool. -/
theorem allocate_some_mem_pool (db : RideSharingDB) (c d : Int)
    (p : ProxyNumberType) (h : getAvailableProxyNumber db c d = some p) :
    p ∈ db.ProxyNumbers := by
  unfold getAvailableProxyNumber at h
  split at h
  · exact List.mem_of_mem_head? h
  · exact List.mem_of_find?_eq_some h

/-- On a non-empty history, a successful allocation of `p` for
(customer `c`, driver `d`) guarantees that neither `[c, p.ID]` nor
`[d, p.ID]` occurs among the existing binding groups. -/
theorem allocate_some_no_conflict (db : RideSharingDB) (c d : Int)
    (p : ProxyNumberType) (hne : db.Rides ≠ [])
    (h : getAvailableProxyNumber db c d = some p) :
    ∀ x ∈ rideProxySets db.Rides, x ≠ [c, p.ID] ∧ x ≠ [d, p.ID] := by
  unfold getAvailableProxyNumber at h
  have hL : (db.Rides.length == 0) = false := by
    cases hr : db.Rides with
    | nil => exact absurd hr hne
    | cons a t => simp [hr]
  rw [hL] at h
  simp only [Bool.false_eq_true, if_false] at h
  have hp := List.find?_some h
  simp only [Bool.and_eq_true, Bool.not_eq_true'] at hp
  obtain ⟨h1, h2⟩ := hp
  unfold containsNumGrp at h1 h2
  intro x hx
  refine ⟨fun he => List.any_eq_false.mp h1 x hx ?_,
    fun he => List.any_eq_false.mp h2 x hx ?_⟩
  · exact beq_iff_eq.mpr he
  · exact beq_iff_eq.mpr he

/-- In a pool whose proxy phone numbers are pairwise distinct (the
database declares `number TEXT UNIQUE`), equal numbers force equal pool
records. -/
theorem pool_number_inj (pool : List ProxyNumberType)
    (hpool : pool.Pairwise (fun a b => a.Number ≠ b.Number)) :
    ∀ a ∈ pool, ∀ b ∈ pool, a.Number = b.Number → a = b := by
  induction pool with
  | nil => intro a ha; exact absurd ha (List.not_mem_nil a)
  | cons x t ih =>
    have hx := (List.pairwise_cons.mp hpool).1
    have ht := (List.pairwise_cons.mp hpool).2
    intro a ha b hb hab
    rcases List.mem_cons.mp ha with rfl | ha2
    · rcases List.mem_cons.mp hb with rfl | hb2
      · rfl
      · exact absurd hab (hx b hb2)
    · rcases List.mem_cons.mp hb with rfl | hb2
      · exact absurd hab.symm (hx a ha2)
      · exact ih ht a ha2 b hb2 hab

/-- One allocate-then-commit step keeps the new pairing
binding-disjoint from every existing pairing. -/
theorem committed_step_disjoint (pool : List ProxyNumberType)
    (hpool : pool.Pairwise (fun a b => a.Number ≠ b.Number))
    (hist : List RideType) (c d : Int) (p : ProxyNumberType)
    (hgood : ∀ r ∈ hist, goodRide r)
    (hmem : ∀ r ∈ hist, r.ThisProxyNumber ∈ pool)
    (halloc : getAvailableProxyNumber (mkDB pool hist) c d = some p) :
    ∀ q ∈ hist, bindingDisjoint q (committedRide c d p) := by
  intro q hq
  unfold bindingDisjoint committedRide mkRide
  intro hnum
  have hpoolp : p ∈ pool := allocate_some_mem_pool (mkDB pool hist) c d p halloc
  have hqp : q.ThisProxyNumber = p :=
    pool_number_inj pool hpool q.ThisProxyNumber (hmem q hq) p hpoolp hnum
  have hne : (mkDB pool hist).Rides ≠ [] := List.ne_nil_of_mem hq
  have hcf := allocate_some_no_conflict (mkDB pool hist) c d p hne halloc
  have hgq := hgood q hq
  have h1 : [q.ThisCustomer.ID, q.ThisProxyNumber.ID] ∈ rideProxySets hist :=
    mem_rideProxySets _ hist q hq (by rw [hgq]; exact List.mem_cons_self _ _)
  have h2 : [q.ThisDriver.ID, q.ThisProxyNumber.ID] ∈ rideProxySets hist :=
    mem_rideProxySets _ hist q hq (by rw [hgq]; simp)
  have hc1 := hcf _ h1
  have hc2 := hcf _ h2
  refine ⟨fun he => hc1.1 ?_, fun he => hc1.2 ?_, fun he => hc2.1 ?_,
    fun he => hc2.2 ?_⟩
  · rw [he, hqp]
  · rw [he, hqp]
  · rw [he, hqp]
  · rw [he, hqp]

/-- C8: for any sequence of allocation requests whose successful results
are each committed to the history before the next call (starting from an
empty history, over a pool with pairwise-distinct proxy phone numbers),
the resulting history satisfies the no-collision invariant: any two
distinct committed pairings sharing a proxy number share no customer or
driver identity. -/
theorem allocate_no_collision (pool : List ProxyNumberType)
    (reqs : List (Int × Int))
    (hpool : pool.Pairwise (fun a b => a.Number ≠ b.Number)) :
    noCollision (commitRides pool reqs []) := by
  suffices h : ∀ hist : List RideType,
      (∀ r ∈ hist, goodRide r) → (∀ r ∈ hist, r.ThisProxyNumber ∈ pool) →
      noCollision hist → noCollision (commitRides pool reqs hist) by
    exact h [] (fun r hr => absurd hr (List.not_mem_nil r))
      (fun r hr => absurd hr (List.not_mem_nil r)) List.Pairwise.nil
  induction reqs with
  | nil => intro hist _ _ hnc; exact hnc
  | cons cd rest ih =>
    intro hist hgood hmem hnc
    simp only [commitRides]
    cases halloc : getAvailableProxyNumber (mkDB pool hist) cd.1 cd.2 with
    | none => exact ih hist hgood hmem hnc
    | some p =>
      have hstep := committed_step_disjoint pool hpool hist cd.1 cd.2 p
        hgood hmem halloc
      apply ih
      · intro r hr
        rcases List.mem_append.mp hr with hr1 | hr2
        · exact hgood r hr1
        · rw [List.mem_singleton.mp hr2]
          rfl
      · intro r hr
        rcases List.mem_append.mp hr with hr1 | hr2
        · exact hmem r hr1
        · rw [List.mem_singleton.mp hr2]
          exact allocate_some_mem_pool (mkDB pool hist) cd.1 cd.2 p halloc
      · refine List.pairwise_append.mpr ⟨hnc, ?_, ?_⟩
        · simp [List.pairwise_singleton]
        · intro a ha b hb
          rw [List.mem_singleton.mp hb]
          exact hstep a ha

/-- Witness for C8 at a concrete pool and request sequence. -/
theorem allocate_no_collision_witness :
    ([⟨10, "V1"⟩, ⟨11, "V2"⟩] : List ProxyNumberType).Pairwise
      (fun a b => a.Number ≠ b.Number) ∧
    noCollision
      (commitRides [⟨10, "V1"⟩, ⟨11, "V2"⟩] [(1, 3), (1, 4), (2, 4)] []) :=
  ⟨by decide, allocate_no_collision [⟨10, "V1"⟩, ⟨11, "V2"⟩]
    [(1, 3), (1, 4), (2, 4)] (by decide)⟩

end MaskedNumbers
